import Mathlib

/-!
Shallow embedding of `gpustack/worker/collector.py`
(`WorkerStatusCollector.collect` and its helper steps) together with the
schema records it reads and writes.  Collaborator calls (system-info
detector, GPU detector, cluster client, worker process manager) are
modelled by a behaviour record holding each call's result, with `Except`
(resp. a dedicated inductive for GPU detection) encoding the possibility
of the call raising.  Python truthiness tests on optionals, strings and
lists are translated explicitly.
-/

set_option autoImplicit false

namespace Collector

/-- Modelled from the spec: opaque CPU descriptor (the collector copies it
verbatim and never inspects it). -/
structure CPUInfo where
  total : Nat
  utilization : Nat
  deriving Repr, DecidableEq

/-- Modelled from the spec: host memory record with capacity, free,
allocated, and unified-memory flag. -/
structure MemoryInfo where
  total : Nat
  used : Nat
  is_unified_memory : Bool
  allocated : Option Nat
  deriving Repr, DecidableEq

/-- Modelled from the spec: opaque swap descriptor. -/
structure SwapInfo where
  total : Nat
  used : Nat
  deriving Repr, DecidableEq

/-- Modelled from the spec: one filesystem mount-point record with
name, mount path and four byte counts. -/
structure MountPoint where
  name : String
  mount_point : String
  total : Nat
  used : Nat
  free : Nat
  available : Nat
  deriving Repr, DecidableEq

/-- Modelled from the spec: OS descriptor (name + version). -/
structure OSInfo where
  name : String
  version : String
  deriving Repr, DecidableEq

/-- Modelled from the spec: opaque kernel descriptor. -/
structure KernelInfo where
  name : String
  deriving Repr, DecidableEq

/-- Modelled from the spec: per-GPU memory record with capacity, used,
unified-memory flag and allocated amount. -/
structure GPUMemoryInfo where
  total : Nat
  used : Nat
  is_unified_memory : Bool
  allocated : Option Nat
  deriving Repr, DecidableEq

/-- Modelled from the spec: GPU device record (stable index + memory). -/
structure GPUDevice where
  index : Nat
  name : String
  memory : GPUMemoryInfo
  deriving Repr, DecidableEq

/-- Modelled from the spec: sidecar relay server record (pid, port,
GPU index). -/
structure RPCServer where
  pid : Nat
  port : Nat
  gpu_index : Nat
  deriving Repr, DecidableEq

/-- Modelled from the spec: the system-info result returned by the
detector collaborator; each field may be absent. -/
structure SystemInfo where
  cpu : Option CPUInfo
  memory : Option MemoryInfo
  swap : Option SwapInfo
  filesystem : Option (List MountPoint)
  os : Option OSInfo
  kernel : Option KernelInfo
  uptime : Option Nat
  deriving Repr, DecidableEq

/-- Modelled from the spec: the `WorkerStatus` snapshot; `WorkerStatus()`
starts with every field unset.  The rpc-servers mapping is kept as an
association list keyed by GPU index. -/
structure WorkerStatus where
  cpu : Option CPUInfo := none
  memory : Option MemoryInfo := none
  swap : Option SwapInfo := none
  filesystem : Option (List MountPoint) := none
  os : Option OSInfo := none
  kernel : Option KernelInfo := none
  uptime : Option Nat := none
  gpu_devices : Option (List GPUDevice) := none
  rpc_servers : Option (List (Nat × RPCServer)) := none
  deriving Repr, DecidableEq

/-- Worker lifecycle state reported to the controller. -/
inductive WorkerStateEnum where
  | NOT_READY
  | READY
  deriving Repr, DecidableEq

/-- Modelled from the spec: the top-level `Worker` output record. -/
structure Worker where
  name : String
  hostname : String
  ip : String
  port : Nat
  state : WorkerStateEnum
  status : WorkerStatus
  state_message : Option String
  worker_uuid : Option String
  deriving Repr, DecidableEq

/-- Modelled from the spec: a workload instance's resource reservation:
optional RAM scalar and optional GPU-index-to-VRAM mapping (kept as an
association list in dict insertion order). -/
structure ComputedResourceClaim where
  ram : Option Nat
  vram : Option (List (Nat × Nat))
  deriving Repr, DecidableEq

/-- Modelled from the spec: a subordinate participant of a distributed
model instance: its worker name and its own resource claim. -/
structure ModelInstanceSubordinateWorker where
  worker_name : String
  computed_resource_claim : Option ComputedResourceClaim
  deriving Repr, DecidableEq

/-- Modelled from the spec: distributed-topology descriptor listing
subordinate participants. -/
structure DistributedServers where
  subordinate_workers : Option (List ModelInstanceSubordinateWorker)
  deriving Repr, DecidableEq

/-- Modelled from the spec: one scheduled workload instance as returned
by the cluster-state client. -/
structure ModelInstance where
  worker_name : String
  computed_resource_claim : Option ComputedResourceClaim
  distributed_servers : Option DistributedServers
  deriving Repr, DecidableEq

/-- Transient accumulator `Allocated(ram=0, vram={})`; the VRAM dict is
an association list in insertion order. -/
structure Allocated where
  ram : Nat
  vram : List (Nat × Nat)
  deriving Repr, DecidableEq

/-- Result of the GPU-detection collaborator call: success with a device
list, the distinguished `GPUDetectExepction` carrying a message, or any
other exception. -/
inductive GpuDetectResult where
  | ok (devices : List GPUDevice)
  | gpuDetectError (msg : String)
  | otherError
  deriving Repr, DecidableEq

instance {ε α : Type} [DecidableEq ε] [DecidableEq α] : DecidableEq (Except ε α) := fun x y =>
  match x, y with
  | .error a, .error b =>
    if h : a = b then .isTrue (by rw [h]) else .isFalse (by intro hc; cases hc; exact h rfl)
  | .error _, .ok _ => .isFalse (fun hc => Except.noConfusion hc)
  | .ok _, .error _ => .isFalse (fun hc => Except.noConfusion hc)
  | .ok a, .ok b =>
    if h : a = b then .isTrue (by rw [h]) else .isFalse (by intro hc; cases hc; exact h rfl)

/-- Behaviour of the optional worker process manager: the worker UUID it
reports at construction time and the outcome of `get_rpc_servers()`
(`error` models the call raising; the process handles carry pid and
port, keyed by GPU index). -/
structure WorkerManagerBehavior where
  worker_uuid : String
  rpc_servers : Except Unit (List (Nat × Nat × Nat))
  deriving Repr, DecidableEq

/-- One call's worth of collaborator behaviour: the result of each
external query `collect` can make.  `Except.error` models the
collaborator raising a (generic) exception. -/
structure Collab where
  detect_system_info : Except Unit SystemInfo
  detect_gpus : GpuDetectResult
  list_model_instances : Except Unit (List ModelInstance)
  worker_manager : Option WorkerManagerBehavior
  deriving Repr, DecidableEq

/-- Construction-time identity of the collector. -/
structure CollectorConfig where
  worker_name : String
  hostname : String
  worker_ip : String
  worker_port : Nat
  deriving Repr, DecidableEq

/-- Python's `needle in hay` substring test, on character lists. -/
def charsContain (hay needle : List Char) : Bool :=
  match hay with
  | [] => needle.isEmpty
  | _ :: t => needle.isPrefixOf hay || charsContain t needle

/-- Python's `sub in s` substring test on strings. -/
def strContains (s sub : String) : Bool :=
  charsContain s.data sub.data

/-- Association-list lookup, modelling Python `dict.get` /
`key in dict`. -/
def lookupA (m : List (Nat × Nat)) (k : Nat) : Option Nat :=
  match m with
  | [] => none
  | p :: rest => if p.1 = k then some p.2 else lookupA rest k

/-- Association-list store, modelling Python `dict[key] = value`
(update in place, or append a fresh key at the end). -/
def insertA (m : List (Nat × Nat)) (k v : Nat) : List (Nat × Nat) :=
  match m with
  | [] => [(k, v)]
  | p :: rest => if p.1 = k then (k, v) :: rest else p :: insertA rest k v

/-- `aggregate_computed_resource_claim_allocated`: folds one (possibly
absent) claim into the accumulator.  `if computed_resource_claim.ram:`
is Python truthiness (absent or zero RAM contributes nothing); the VRAM
loop runs over `vram or {}` and does
`allocated.vram[i] = (allocated.vram.get(i) or 0) + v`. -/
def aggregate_computed_resource_claim_allocated (allocated : Allocated)
    (computed_resource_claim : Option ComputedResourceClaim) : Allocated :=
  match computed_resource_claim with
  | none => allocated
  | some claim =>
    let ram :=
      match claim.ram with
      | some r => if r ≠ 0 then allocated.ram + r else allocated.ram
      | none => allocated.ram
    let vram :=
      (claim.vram.getD []).foldl
        (fun m p => insertA m p.1 ((lookupA m p.1).getD 0 + p.2)) allocated.vram
    { ram := ram, vram := vram }

/-- The body of the subordinate-workers scan for one model instance:
fold every subordinate whose worker name equals ours. -/
def subWorkersFold (worker_name : String)
    (subs : List ModelInstanceSubordinateWorker) (acc : Allocated) : Allocated :=
  subs.foldl
    (fun a sw =>
      if sw.worker_name ≠ worker_name then a
      else aggregate_computed_resource_claim_allocated a sw.computed_resource_claim)
    acc

/-- The loop body of `_inject_allocated_resource` for one model
instance: the subordinate scan runs only when `distributed_servers` and
its `subordinate_workers` are truthy (non-`None`, non-empty list); the
top-level claim is folded when the instance's own worker name equals
ours. -/
def instanceSubStep (worker_name : String) (acc : Allocated)
    (mi : ModelInstance) : Allocated :=
  match mi.distributed_servers with
  | none => acc
  | some ds =>
    match ds.subordinate_workers with
    | none => acc
    | some subs =>
      if subs.isEmpty then acc else subWorkersFold worker_name subs acc

/-- Continuation of the loop body: after the subordinate scan, the
top-level claim is folded when the instance's own worker name equals
ours. -/
def instanceFoldStep (worker_name : String) (acc : Allocated)
    (mi : ModelInstance) : Allocated :=
  let acc1 := instanceSubStep worker_name acc mi
  if mi.worker_name ≠ worker_name then acc1
  else aggregate_computed_resource_claim_allocated acc1 mi.computed_resource_claim

/-- `_inject_allocated_resource`: list the model instances (the one
fallible call of the step — `Except.error` models the client raising or
being absent, caught by the step's `try`), accumulate RAM/VRAM claims,
then write the RAM total when a memory record exists and a per-device
allocated VRAM (zero when the index is missing) for every GPU device. -/
def inject_allocated_resource (worker_name : String)
    (list_model_instances : Except Unit (List ModelInstance))
    (status : WorkerStatus) : WorkerStatus :=
  match list_model_instances with
  | .error _ => status
  | .ok instances =>
    let allocated := instances.foldl (instanceFoldStep worker_name) ⟨0, []⟩
    let status1 :=
      match status.memory with
      | none => status
      | some m => { status with memory := some { m with allocated := some allocated.ram } }
    match status1.gpu_devices with
    | none => status1
    | some devices =>
      { status1 with
        gpu_devices := some (devices.map (fun device =>
          match lookupA allocated.vram device.index with
          | some v => { device with memory := { device.memory with allocated := some v } }
          | none => { device with memory := { device.memory with allocated := some 0 } })) }

/-- `_inject_unified_memory`: read the first GPU device's unified-memory
flag when the device list is present and non-empty (else `False`), and
copy it onto the memory record when one exists. -/
def inject_unified_memory (status : WorkerStatus) : WorkerStatus :=
  let is_unified_memory :=
    match status.gpu_devices with
    | some (d :: _) => d.memory.is_unified_memory
    | _ => false
  match status.memory with
  | none => status
  | some m => { status with memory := some { m with is_unified_memory := is_unified_memory } }

/-- `_inject_computed_filesystem_usage`: when an OS descriptor is
present, its name contains `"Windows"`, and the filesystem list is
present (`is not None` — an empty list passes), build one `computed`
entry at mount path `/` by summing all four fields over the existing
entries and append it. -/
def inject_computed_filesystem_usage (status : WorkerStatus) : WorkerStatus :=
  match status.os with
  | none => status
  | some os =>
    if ¬ strContains os.name "Windows" then status
    else
      match status.filesystem with
      | none => status
      | some fs =>
        let computed := fs.foldl
          (fun (c : MountPoint) mp =>
            { c with
              total := c.total + mp.total
              used := c.used + mp.used
              free := c.free + mp.free
              available := c.available + mp.available })
          { name := "computed", mount_point := "/", total := 0, used := 0, free := 0, available := 0 }
        { status with filesystem := some (fs ++ [computed]) }

/-- The system-info step of `collect`: copy the seven fields on success,
leave the status untouched when the detector raised. -/
def sysInfoStep (result : Except Unit SystemInfo) (status : WorkerStatus) : WorkerStatus :=
  match result with
  | .error _ => status
  | .ok si =>
    { status with
      cpu := si.cpu, memory := si.memory, swap := si.swap,
      filesystem := si.filesystem, os := si.os, kernel := si.kernel,
      uptime := si.uptime }

/-- The GPU-detection step of `collect`: skipped entirely when
`initial`; on success store the device list; on the distinguished
`GPUDetectExepction` capture its message as the state message; on any
other exception only log.  Returns the updated status and the captured
state message. -/
def gpuStep (initial : Bool) (result : GpuDetectResult)
    (status : WorkerStatus) : WorkerStatus × Option String :=
  if initial then (status, none)
  else
    match result with
    | .ok devices => ({ status with gpu_devices := some devices }, none)
    | .gpuDetectError msg => (status, some msg)
    | .otherError => (status, none)

/-- The sidecar-server step of `collect`: nothing when no process
manager is configured; otherwise call `get_rpc_servers()` — this call
is NOT guarded by a `try`, so its failure propagates — and record
pid/port/GPU-index per entry. -/
def rpcStep (wm : Option WorkerManagerBehavior)
    (status : WorkerStatus) : Except Unit WorkerStatus :=
  match wm with
  | none => .ok status
  | some m =>
    match m.rpc_servers with
    | .error e => .error e
    | .ok procs =>
      .ok { status with
            rpc_servers := some (procs.map (fun p =>
              (p.1, { pid := p.2.1, port := p.2.2, gpu_index := p.1 }))) }

/-- Python truthiness of the captured state message: `None` and the
empty string are falsy. -/
def truthyMsg (msg : Option String) : Bool :=
  match msg with
  | none => false
  | some s => s ≠ ""

/-- `WorkerStatusCollector.collect`: assemble the status snapshot from
the collaborator results, derive the readiness state from
`initial or state_message` (Python truthiness), and return the Worker
record.  `Except.error` is the call itself raising. -/
def collect (cfg : CollectorConfig) (c : Collab) (initial : Bool) : Except Unit Worker :=
  let status0 : WorkerStatus := {}
  let status1 := sysInfoStep c.detect_system_info status0
  let step2 := gpuStep initial c.detect_gpus status1
  let state_message := step2.2
  let status3 := inject_unified_memory step2.1
  let status4 := inject_computed_filesystem_usage status3
  let status5 := inject_allocated_resource cfg.worker_name c.list_model_instances status4
  match rpcStep c.worker_manager status5 with
  | .error e => .error e
  | .ok status6 =>
    let state :=
      if initial || truthyMsg state_message then WorkerStateEnum.NOT_READY
      else WorkerStateEnum.READY
    .ok { name := cfg.worker_name
          hostname := cfg.hostname
          ip := cfg.worker_ip
          port := cfg.worker_port
          state := state
          status := status6
          state_message := state_message
          worker_uuid := c.worker_manager.map WorkerManagerBehavior.worker_uuid }

/-! ### Spec-side definitions

These follow the spec's wording and are compared with the embedded
source functions by the theorems below. -/

/-- Spec wording: a claim's RAM contribution — absent claims and absent
RAM scalars contribute nothing. -/
def claimRam (c : Option ComputedResourceClaim) : Nat :=
  match c with
  | none => 0
  | some cc => cc.ram.getD 0

/-- Spec wording: a claim's VRAM contribution for one GPU index — the
sum of the claim's VRAM entries at that index. -/
def claimVramAt (idx : Nat) (c : Option ComputedResourceClaim) : Nat :=
  match c with
  | none => 0
  | some cc => (((cc.vram.getD []).filter (fun p => p.1 = idx)).map Prod.snd).sum

/-- The subordinate participants declared by an instance (empty when the
topology descriptor or its list is absent). -/
def subsOf (mi : ModelInstance) : List ModelInstanceSubordinateWorker :=
  match mi.distributed_servers with
  | none => []
  | some ds => ds.subordinate_workers.getD []

/-- Spec wording: one instance's RAM contribution for worker `wname` —
every subordinate claim whose worker name matches, plus the instance's
own top-level claim when its primary owner name matches; both roles
counted independently. -/
def instanceRam (wname : String) (mi : ModelInstance) : Nat :=
  (((subsOf mi).filter (fun sw => sw.worker_name = wname)).map
      (fun sw => claimRam sw.computed_resource_claim)).sum
    + (if mi.worker_name = wname then claimRam mi.computed_resource_claim else 0)

/-- Spec wording: one instance's VRAM contribution at GPU index `idx`
for worker `wname`, over the same instance/role set as RAM. -/
def instanceVramAt (wname : String) (idx : Nat) (mi : ModelInstance) : Nat :=
  (((subsOf mi).filter (fun sw => sw.worker_name = wname)).map
      (fun sw => claimVramAt idx sw.computed_resource_claim)).sum
    + (if mi.worker_name = wname then claimVramAt idx mi.computed_resource_claim else 0)

/-- Spec wording: the synthesized `computed` entry — name `computed`,
mount path `/`, each of the four fields the exact sum of the
corresponding field across the given entries. -/
def computedMountPoint (fs : List MountPoint) : MountPoint :=
  { name := "computed"
    mount_point := "/"
    total := (fs.map MountPoint.total).sum
    used := (fs.map MountPoint.used).sum
    free := (fs.map MountPoint.free).sum
    available := (fs.map MountPoint.available).sum }

/-- Spec wording (amended): append the synthesized `computed` entry
exactly when the OS descriptor is present, its name contains the
target-family substring, and a filesystem list is present (possibly
empty); otherwise leave the status unchanged. -/
def filesystemUsageSpec (status : WorkerStatus) : WorkerStatus :=
  match status.os, status.filesystem with
  | some os, some fs =>
    if strContains os.name "Windows" then
      { status with filesystem := some (fs ++ [computedMountPoint fs]) }
    else status
  | _, _ => status

/-- Spec wording: the first GPU device's unified-memory flag when the
device list is non-empty, `false` when it is empty or absent. -/
def firstDeviceUnifiedMemory (devices : Option (List GPUDevice)) : Bool :=
  match devices with
  | none => false
  | some [] => false
  | some (d :: _) => d.memory.is_unified_memory

/-- Spec wording: the state message captured by a collection call —
the distinguished GPU-detection failure's message, only when the GPU
step ran (`initial` false) and that failure occurred. -/
def gpuFailureMsg (initial : Bool) (r : GpuDetectResult) : Option String :=
  if initial then none
  else
    match r with
    | .gpuDetectError m => some m
    | _ => none

/-- The proviso under which `collect` cannot raise: the process manager
is absent, or its `get_rpc_servers()` call succeeds. -/
def rpcQueryOk (c : Collab) : Prop :=
  ∀ m, c.worker_manager = some m → ∃ l, m.rpc_servers = Except.ok l

/-- Shape of a memory record with its `allocated` field erased, for
frame statements. -/
def memShape (m : MemoryInfo) : Nat × Nat × Bool :=
  (m.total, m.used, m.is_unified_memory)

/-- Shape of a GPU device with its memory `allocated` field erased, for
frame statements. -/
def devShape (d : GPUDevice) : Nat × String × Nat × Nat × Bool :=
  (d.index, d.name, d.memory.total, d.memory.used, d.memory.is_unified_memory)

/-- Replace the uptime of a system-info result. -/
def siWithUptime (si : SystemInfo) (u : Option Nat) : SystemInfo :=
  { si with uptime := u }

/-- Replace the uptime reported by the system-info collaborator. -/
def collabWithUptime (c : Collab) (u : Option Nat) : Collab :=
  { c with detect_system_info := c.detect_system_info.map (fun si => siWithUptime si u) }

/-- Erase the uptime field of a returned Worker record. -/
def scrubUptime (w : Worker) : Worker :=
  { w with status := { w.status with uptime := none } }

/-! ### Concrete fixtures for counterexamples and witnesses -/

/-- A fixed collector identity. -/
def cfgEx : CollectorConfig :=
  { worker_name := "worker-A", hostname := "host-A", worker_ip := "10.0.0.1", worker_port := 10150 }

/-- Collaborators: GPU detection raises the distinguished error with an
empty message, everything else fails generically, no process manager. -/
def collabEmptyMsg : Collab :=
  { detect_system_info := .error ()
    detect_gpus := .gpuDetectError ""
    list_model_instances := .error ()
    worker_manager := none }

/-- Collaborators: GPU detection raises the distinguished error with a
non-empty message. -/
def collabBoom : Collab :=
  { collabEmptyMsg with detect_gpus := .gpuDetectError "boom" }

/-- Collaborators: everything benign except `get_rpc_servers()`, which
raises. -/
def collabRpcRaise : Collab :=
  { collabEmptyMsg with
    detect_gpus := .ok []
    worker_manager := some { worker_uuid := "uuid-1", rpc_servers := .error () } }

/-- A status on the target OS family whose filesystem list is present
but empty. -/
def statusEmptyFsWin : WorkerStatus :=
  { os := some { name := "Windows 11", version := "10.0" }, filesystem := some [] }

/-- A memory record fixture. -/
def memEx : MemoryInfo :=
  { total := 100, used := 10, is_unified_memory := false, allocated := none }

/-- A GPU device fixture with the unified-memory flag set. -/
def devEx : GPUDevice :=
  { index := 0, name := "gpu-0", memory := { total := 8, used := 1, is_unified_memory := true, allocated := none } }

/-- A status fixture with a memory record and one unified-memory GPU. -/
def statusMemDev : WorkerStatus :=
  { memory := some memEx, gpu_devices := some [devEx] }

/-- A status fixture with no memory record. -/
def statusNoMem : WorkerStatus :=
  { gpu_devices := some [devEx] }

/-- A benign collaborator set with a successful system-info result. -/
def siEx : SystemInfo :=
  { cpu := some { total := 8, utilization := 2 }
    memory := some memEx
    swap := some { total := 4, used := 1 }
    filesystem := some []
    os := some { name := "Linux", version := "6.1" }
    kernel := some { name := "Linux" }
    uptime := some 42 }

/-- The Worker record returned for `cfgEx`/`collabBoom` at
`initial = false`. -/
def wBoom : Worker :=
  { name := "worker-A"
    hostname := "host-A"
    ip := "10.0.0.1"
    port := 10150
    state := WorkerStateEnum.NOT_READY
    status := {}
    state_message := some "boom"
    worker_uuid := none }

/-- Collaborators: all queries succeed. -/
def collabOk : Collab :=
  { detect_system_info := .ok siEx
    detect_gpus := .ok [devEx]
    list_model_instances := .ok []
    worker_manager := none }

/-! ### Helper lemmas: association lists and claim aggregation -/

theorem lookupA_nil (j : Nat) : lookupA [] j = none := rfl

theorem lookupA_insertA (m : List (Nat × Nat)) (k v j : Nat) :
    lookupA (insertA m k v) j = if j = k then some v else lookupA m j := by
  induction m with
  | nil =>
    by_cases h : j = k
    · subst h; simp [insertA, lookupA]
    · have h' : ¬ k = j := fun hc => h hc.symm
      simp [insertA, lookupA, h, h']
  | cons p rest ih =>
    by_cases hp : p.1 = k
    · by_cases hj : j = k
      · subst hj; simp [insertA, lookupA, hp]
      · have h' : ¬ k = j := fun hc => hj hc.symm
        have hp' : ¬ p.1 = j := by rw [hp]; exact h'
        simp [insertA, lookupA, hp, hj, h', hp']
    · by_cases hpj : p.1 = j
      · have hj : ¬ j = k := by rw [← hpj]; exact hp
        simp [insertA, lookupA, hp, hpj, hj]
      · simp [insertA, lookupA, hp, hpj, ih]

theorem vramFold_lookup (pairs : List (Nat × Nat)) (m : List (Nat × Nat)) (idx : Nat) :
    (lookupA (pairs.foldl (fun m p => insertA m p.1 ((lookupA m p.1).getD 0 + p.2)) m) idx).getD 0
      = (lookupA m idx).getD 0 + (((pairs.filter (fun p => p.1 = idx)).map Prod.snd)).sum := by
  induction pairs generalizing m with
  | nil => simp
  | cons p rest ih =>
    rw [List.foldl_cons, ih]
    by_cases h : p.1 = idx
    · subst h
      rw [List.filter_cons_of_pos (by simp), lookupA_insertA]
      simp
      omega
    · have hne : ¬ idx = p.1 := fun hc => h hc.symm
      rw [List.filter_cons_of_neg (by simp [h]), lookupA_insertA]
      simp [hne]

theorem aggregate_ram (a : Allocated) (c : Option ComputedResourceClaim) :
    (aggregate_computed_resource_claim_allocated a c).ram = a.ram + claimRam c := by
  cases c with
  | none => simp [aggregate_computed_resource_claim_allocated, claimRam]
  | some cc =>
    cases hr : cc.ram with
    | none => simp [aggregate_computed_resource_claim_allocated, claimRam, hr]
    | some r =>
      by_cases h : r = 0 <;>
        simp [aggregate_computed_resource_claim_allocated, claimRam, hr, h]

theorem aggregate_vram (a : Allocated) (c : Option ComputedResourceClaim) (idx : Nat) :
    (lookupA (aggregate_computed_resource_claim_allocated a c).vram idx).getD 0
      = (lookupA a.vram idx).getD 0 + claimVramAt idx c := by
  cases c with
  | none => simp [aggregate_computed_resource_claim_allocated, claimVramAt]
  | some cc =>
    simp [aggregate_computed_resource_claim_allocated, claimVramAt, vramFold_lookup]

theorem subWorkersFold_cons (w : String) (sw : ModelInstanceSubordinateWorker)
    (rest : List ModelInstanceSubordinateWorker) (a : Allocated) :
    subWorkersFold w (sw :: rest) a
      = subWorkersFold w rest
          (if sw.worker_name ≠ w then a
           else aggregate_computed_resource_claim_allocated a sw.computed_resource_claim) := rfl

theorem subWorkersFold_ram (w : String) (subs : List ModelInstanceSubordinateWorker)
    (a : Allocated) :
    (subWorkersFold w subs a).ram
      = a.ram + ((subs.filter (fun sw => sw.worker_name = w)).map
          (fun sw => claimRam sw.computed_resource_claim)).sum := by
  induction subs generalizing a with
  | nil => simp [subWorkersFold]
  | cons sw rest ih =>
    rw [subWorkersFold_cons]
    by_cases h : sw.worker_name = w
    · rw [if_neg (by simp [h]), ih, List.filter_cons_of_pos (by simp [h])]
      simp [aggregate_ram]
      omega
    · rw [if_pos (by simp [h]), ih, List.filter_cons_of_neg (by simp [h])]

theorem subWorkersFold_vram (w : String) (subs : List ModelInstanceSubordinateWorker)
    (a : Allocated) (idx : Nat) :
    (lookupA (subWorkersFold w subs a).vram idx).getD 0
      = (lookupA a.vram idx).getD 0 + ((subs.filter (fun sw => sw.worker_name = w)).map
          (fun sw => claimVramAt idx sw.computed_resource_claim)).sum := by
  induction subs generalizing a with
  | nil => simp [subWorkersFold]
  | cons sw rest ih =>
    rw [subWorkersFold_cons]
    by_cases h : sw.worker_name = w
    · rw [if_neg (by simp [h]), ih, List.filter_cons_of_pos (by simp [h])]
      simp [aggregate_vram]
      omega
    · rw [if_pos (by simp [h]), ih, List.filter_cons_of_neg (by simp [h])]

theorem instanceSubStep_ram (w : String) (acc : Allocated) (mi : ModelInstance) :
    (instanceSubStep w acc mi).ram
      = acc.ram + (((subsOf mi).filter (fun sw => sw.worker_name = w)).map
          (fun sw => claimRam sw.computed_resource_claim)).sum := by
  cases hds : mi.distributed_servers with
  | none => simp [instanceSubStep, subsOf, hds]
  | some ds =>
    cases hsw : ds.subordinate_workers with
    | none => simp [instanceSubStep, subsOf, hds, hsw]
    | some subs =>
      cases subs with
      | nil => simp [instanceSubStep, subsOf, hds, hsw]
      | cons x xs => simp [instanceSubStep, subsOf, hds, hsw, subWorkersFold_ram]

theorem instanceSubStep_vram (w : String) (acc : Allocated) (mi : ModelInstance) (idx : Nat) :
    (lookupA (instanceSubStep w acc mi).vram idx).getD 0
      = (lookupA acc.vram idx).getD 0 + (((subsOf mi).filter (fun sw => sw.worker_name = w)).map
          (fun sw => claimVramAt idx sw.computed_resource_claim)).sum := by
  cases hds : mi.distributed_servers with
  | none => simp [instanceSubStep, subsOf, hds]
  | some ds =>
    cases hsw : ds.subordinate_workers with
    | none => simp [instanceSubStep, subsOf, hds, hsw]
    | some subs =>
      cases subs with
      | nil => simp [instanceSubStep, subsOf, hds, hsw]
      | cons x xs => simp [instanceSubStep, subsOf, hds, hsw, subWorkersFold_vram]

theorem instanceFoldStep_ram (w : String) (acc : Allocated) (mi : ModelInstance) :
    (instanceFoldStep w acc mi).ram = acc.ram + instanceRam w mi := by
  unfold instanceFoldStep instanceRam
  by_cases h : mi.worker_name = w
  · rw [if_neg (by simp [h]), aggregate_ram, instanceSubStep_ram]
    simp [h]
    omega
  · rw [if_pos (by simp [h]), instanceSubStep_ram]
    simp [h]

theorem instanceFoldStep_vram (w : String) (acc : Allocated) (mi : ModelInstance) (idx : Nat) :
    (lookupA (instanceFoldStep w acc mi).vram idx).getD 0
      = (lookupA acc.vram idx).getD 0 + instanceVramAt w idx mi := by
  unfold instanceFoldStep instanceVramAt
  by_cases h : mi.worker_name = w
  · rw [if_neg (by simp [h]), aggregate_vram, instanceSubStep_vram]
    simp [h]
    omega
  · rw [if_pos (by simp [h]), instanceSubStep_vram]
    simp [h]

theorem foldl_instances_ram (w : String) (instances : List ModelInstance) (a : Allocated) :
    (instances.foldl (instanceFoldStep w) a).ram
      = a.ram + (instances.map (instanceRam w)).sum := by
  induction instances generalizing a with
  | nil => simp
  | cons mi rest ih =>
    rw [List.foldl_cons, ih, instanceFoldStep_ram]
    simp
    omega

theorem foldl_instances_vram (w : String) (instances : List ModelInstance) (a : Allocated)
    (idx : Nat) :
    (lookupA (instances.foldl (instanceFoldStep w) a).vram idx).getD 0
      = (lookupA a.vram idx).getD 0 + (instances.map (instanceVramAt w idx)).sum := by
  induction instances generalizing a with
  | nil => simp
  | cons mi rest ih =>
    rw [List.foldl_cons, ih, instanceFoldStep_vram]
    simp
    omega

/-! ### Frame lemmas for the allocated-resource step -/

theorem inject_allocated_cpu (w : String) (r : Except Unit (List ModelInstance))
    (s : WorkerStatus) : (inject_allocated_resource w r s).cpu = s.cpu := by
  cases r with
  | error e => rfl
  | ok instances =>
    cases hm : s.memory <;> cases hg : s.gpu_devices <;>
      simp [inject_allocated_resource, hm, hg]

theorem inject_allocated_swap (w : String) (r : Except Unit (List ModelInstance))
    (s : WorkerStatus) : (inject_allocated_resource w r s).swap = s.swap := by
  cases r with
  | error e => rfl
  | ok instances =>
    cases hm : s.memory <;> cases hg : s.gpu_devices <;>
      simp [inject_allocated_resource, hm, hg]

theorem inject_allocated_filesystem (w : String) (r : Except Unit (List ModelInstance))
    (s : WorkerStatus) : (inject_allocated_resource w r s).filesystem = s.filesystem := by
  cases r with
  | error e => rfl
  | ok instances =>
    cases hm : s.memory <;> cases hg : s.gpu_devices <;>
      simp [inject_allocated_resource, hm, hg]

theorem inject_allocated_os (w : String) (r : Except Unit (List ModelInstance))
    (s : WorkerStatus) : (inject_allocated_resource w r s).os = s.os := by
  cases r with
  | error e => rfl
  | ok instances =>
    cases hm : s.memory <;> cases hg : s.gpu_devices <;>
      simp [inject_allocated_resource, hm, hg]

theorem inject_allocated_kernel (w : String) (r : Except Unit (List ModelInstance))
    (s : WorkerStatus) : (inject_allocated_resource w r s).kernel = s.kernel := by
  cases r with
  | error e => rfl
  | ok instances =>
    cases hm : s.memory <;> cases hg : s.gpu_devices <;>
      simp [inject_allocated_resource, hm, hg]

theorem inject_allocated_uptime_field (w : String) (r : Except Unit (List ModelInstance))
    (s : WorkerStatus) : (inject_allocated_resource w r s).uptime = s.uptime := by
  cases r with
  | error e => rfl
  | ok instances =>
    cases hm : s.memory <;> cases hg : s.gpu_devices <;>
      simp [inject_allocated_resource, hm, hg]

theorem inject_allocated_rpc (w : String) (r : Except Unit (List ModelInstance))
    (s : WorkerStatus) : (inject_allocated_resource w r s).rpc_servers = s.rpc_servers := by
  cases r with
  | error e => rfl
  | ok instances =>
    cases hm : s.memory <;> cases hg : s.gpu_devices <;>
      simp [inject_allocated_resource, hm, hg]

theorem inject_allocated_memShape (w : String) (r : Except Unit (List ModelInstance))
    (s : WorkerStatus) :
    (inject_allocated_resource w r s).memory.map memShape = s.memory.map memShape := by
  cases r with
  | error e => rfl
  | ok instances =>
    cases hm : s.memory <;> cases hg : s.gpu_devices <;>
      simp [inject_allocated_resource, hm, hg, memShape]

theorem inject_allocated_devShape (w : String) (r : Except Unit (List ModelInstance))
    (s : WorkerStatus) :
    (inject_allocated_resource w r s).gpu_devices.map (fun l => l.map devShape)
      = s.gpu_devices.map (fun l => l.map devShape) := by
  cases r with
  | error e => rfl
  | ok instances =>
    cases hm : s.memory <;> cases hg : s.gpu_devices <;>
      simp [inject_allocated_resource, hm, hg, List.map_map, Function.comp, devShape] <;>
      intro a _ <;>
      cases lookupA (List.foldl (instanceFoldStep w) { ram := 0, vram := [] } instances).vram a.index <;>
      simp

theorem inject_allocated_memory_none (w : String) (r : Except Unit (List ModelInstance))
    (s : WorkerStatus) (h : s.memory = none) :
    (inject_allocated_resource w r s).memory = none := by
  cases r with
  | error e => simpa [inject_allocated_resource] using h
  | ok instances =>
    cases hg : s.gpu_devices <;> simp [inject_allocated_resource, h, hg]

theorem inject_allocated_gpu_none (w : String) (r : Except Unit (List ModelInstance))
    (s : WorkerStatus) (h : s.gpu_devices = none) :
    (inject_allocated_resource w r s).gpu_devices = none := by
  cases r with
  | error e => simpa [inject_allocated_resource] using h
  | ok instances =>
    cases hm : s.memory <;> simp [inject_allocated_resource, h, hm]

/-! ### Frame and commutation lemmas for the other steps -/

theorem inject_unified_of_memory_none (s : WorkerStatus) (h : s.memory = none) :
    inject_unified_memory s = s := by
  unfold inject_unified_memory
  simp [h]

theorem inject_fs_of_os_none (s : WorkerStatus) (h : s.os = none) :
    inject_computed_filesystem_usage s = s := by
  unfold inject_computed_filesystem_usage
  simp [h]

theorem inject_unified_gpu (s : WorkerStatus) :
    (inject_unified_memory s).gpu_devices = s.gpu_devices := by
  unfold inject_unified_memory
  cases hm : s.memory <;> simp [hm]

theorem inject_fs_gpu (s : WorkerStatus) :
    (inject_computed_filesystem_usage s).gpu_devices = s.gpu_devices := by
  unfold inject_computed_filesystem_usage
  cases ho : s.os with
  | none => rfl
  | some o =>
    by_cases hw : strContains o.name "Windows"
    · cases hf : s.filesystem <;> simp [ho, hw, hf]
    · simp [ho, hw]

theorem sysInfoStep_gpu (r : Except Unit SystemInfo) (s : WorkerStatus) :
    (sysInfoStep r s).gpu_devices = s.gpu_devices := by
  cases r <;> rfl

theorem gpuStep_fields (initial : Bool) (r : GpuDetectResult) (s : WorkerStatus) :
    (gpuStep initial r s).1.cpu = s.cpu ∧ (gpuStep initial r s).1.memory = s.memory
      ∧ (gpuStep initial r s).1.swap = s.swap
      ∧ (gpuStep initial r s).1.filesystem = s.filesystem
      ∧ (gpuStep initial r s).1.os = s.os ∧ (gpuStep initial r s).1.kernel = s.kernel
      ∧ (gpuStep initial r s).1.uptime = s.uptime
      ∧ (gpuStep initial r s).1.rpc_servers = s.rpc_servers := by
  cases initial <;> cases r <;> simp [gpuStep]

theorem gpuStep_msg (initial : Bool) (r : GpuDetectResult) (s : WorkerStatus) :
    (gpuStep initial r s).2 = gpuFailureMsg initial r := by
  cases initial <;> cases r <;> rfl

theorem rpcStep_ok_frame (wm : Option WorkerManagerBehavior) (s t : WorkerStatus)
    (h : rpcStep wm s = .ok t) :
    t.cpu = s.cpu ∧ t.memory = s.memory ∧ t.swap = s.swap ∧ t.filesystem = s.filesystem
      ∧ t.os = s.os ∧ t.kernel = s.kernel ∧ t.uptime = s.uptime
      ∧ t.gpu_devices = s.gpu_devices := by
  cases wm with
  | none =>
    simp [rpcStep] at h
    subst h
    simp
  | some m =>
    cases hr : m.rpc_servers with
    | error e => simp [rpcStep, hr] at h
    | ok l =>
      simp [rpcStep, hr] at h
      subst h
      simp

theorem gpuStep_uptime_commute (initial : Bool) (r : GpuDetectResult)
    (s : WorkerStatus) (x : Option Nat) :
    gpuStep initial r { s with uptime := x }
      = ({ (gpuStep initial r s).1 with uptime := x }, (gpuStep initial r s).2) := by
  cases initial <;> cases r <;> rfl

theorem inject_unified_uptime_commute (s : WorkerStatus) (x : Option Nat) :
    inject_unified_memory { s with uptime := x }
      = { inject_unified_memory s with uptime := x } := by
  obtain ⟨c, m, sw, f, o, k, u, g, rp⟩ := s
  cases m <;> rfl

theorem inject_fs_uptime_commute (s : WorkerStatus) (x : Option Nat) :
    inject_computed_filesystem_usage { s with uptime := x }
      = { inject_computed_filesystem_usage s with uptime := x } := by
  obtain ⟨c, m, sw, f, o, k, u, g, rp⟩ := s
  cases o with
  | none => rfl
  | some oo =>
    by_cases hw : strContains oo.name "Windows"
    · cases f <;> simp [inject_computed_filesystem_usage, hw]
    · simp [inject_computed_filesystem_usage, hw]

theorem inject_allocated_uptime_commute (w : String) (r : Except Unit (List ModelInstance))
    (s : WorkerStatus) (x : Option Nat) :
    inject_allocated_resource w r { s with uptime := x }
      = { inject_allocated_resource w r s with uptime := x } := by
  obtain ⟨c, m, sw, f, o, k, u, g, rp⟩ := s
  cases r with
  | error e => rfl
  | ok instances => cases m <;> cases g <;> simp [inject_allocated_resource]

theorem rpcStep_uptime_commute (wm : Option WorkerManagerBehavior)
    (s : WorkerStatus) (x : Option Nat) :
    rpcStep wm { s with uptime := x }
      = (rpcStep wm s).map (fun t => { t with uptime := x }) := by
  cases wm with
  | none => rfl
  | some m => cases hr : m.rpc_servers <;> simp [rpcStep, hr, Except.map]

theorem sysInfoStep_uptime (si : SystemInfo) (u : Option Nat) :
    sysInfoStep (.ok (siWithUptime si u)) {}
      = { sysInfoStep (.ok si) {} with uptime := u } := rfl

theorem gpuStep_initial (r : GpuDetectResult) (s : WorkerStatus) :
    gpuStep true r s = (s, none) := rfl

theorem gpuStep_fst_uptime (initial : Bool) (r : GpuDetectResult)
    (s : WorkerStatus) (x : Option Nat) :
    (gpuStep initial r { s with uptime := x }).1
      = { (gpuStep initial r s).1 with uptime := x } := by
  cases initial <;> cases r <;> rfl

theorem gpuStep_snd_uptime (initial : Bool) (r : GpuDetectResult)
    (s : WorkerStatus) (x : Option Nat) :
    (gpuStep initial r { s with uptime := x }).2 = (gpuStep initial r s).2 := by
  cases initial <;> cases r <;> rfl

theorem truthyMsg_iff (o : Option String) :
    truthyMsg o = true ↔ ∃ m, o = some m ∧ m ≠ "" := by
  cases o with
  | none => simp [truthyMsg]
  | some s => by_cases h : s = "" <;> simp [truthyMsg, h]

theorem collect_ok_inv (cfg : CollectorConfig) (c : Collab) (initial : Bool) (w : Worker)
    (h : collect cfg c initial = .ok w) :
    ∃ t, rpcStep c.worker_manager
        (inject_allocated_resource cfg.worker_name c.list_model_instances
          (inject_computed_filesystem_usage (inject_unified_memory
            (gpuStep initial c.detect_gpus (sysInfoStep c.detect_system_info {})).1)))
        = .ok t
      ∧ w = { name := cfg.worker_name
              hostname := cfg.hostname
              ip := cfg.worker_ip
              port := cfg.worker_port
              state := if initial
                  || truthyMsg (gpuStep initial c.detect_gpus
                        (sysInfoStep c.detect_system_info {})).2
                then WorkerStateEnum.NOT_READY else WorkerStateEnum.READY
              status := t
              state_message := (gpuStep initial c.detect_gpus
                (sysInfoStep c.detect_system_info {})).2
              worker_uuid := c.worker_manager.map WorkerManagerBehavior.worker_uuid } := by
  simp only [collect] at h
  cases hr : rpcStep c.worker_manager
      (inject_allocated_resource cfg.worker_name c.list_model_instances
        (inject_computed_filesystem_usage (inject_unified_memory
          (gpuStep initial c.detect_gpus (sysInfoStep c.detect_system_info {})).1))) with
  | error e => rw [hr] at h; exact absurd h (by simp)
  | ok t =>
    rw [hr] at h
    simp only [Except.ok.injEq] at h
    exact ⟨t, rfl, h.symm⟩

/-! ### Claim theorems -/

theorem fsFold_eq (fs : List MountPoint) (c : MountPoint) :
    fs.foldl (fun (c : MountPoint) mp =>
        { c with
          total := c.total + mp.total
          used := c.used + mp.used
          free := c.free + mp.free
          available := c.available + mp.available }) c
      = { c with
          total := c.total + (fs.map MountPoint.total).sum
          used := c.used + (fs.map MountPoint.used).sum
          free := c.free + (fs.map MountPoint.free).sum
          available := c.available + (fs.map MountPoint.available).sum } := by
  induction fs generalizing c with
  | nil => simp
  | cons mp rest ih =>
    rw [List.foldl_cons, ih]
    simp
    omega

/-- Claim C3: when the model-instance list is obtained, the allocated
RAM total written to the status's memory record equals the sum, over
all model instances, of the RAM of every subordinate claim whose worker
name equals this worker's name plus the RAM of the instance's own
top-level claim when its primary owner name equals this worker's name —
both roles counted independently, absent claims and RAM scalars
contributing nothing; the total is written only if a memory record
exists (an absent memory record stays absent). -/
theorem inject_allocated_ram_total (w : String) (instances : List ModelInstance)
    (s : WorkerStatus) :
    (inject_allocated_resource w (.ok instances) s).memory
      = s.memory.map (fun m =>
          { m with allocated := some ((instances.map (instanceRam w)).sum) }) := by
  have hram : (instances.foldl (instanceFoldStep w) ⟨0, []⟩).ram
      = (instances.map (instanceRam w)).sum := by
    rw [foldl_instances_ram]
    simp
  cases hm : s.memory with
  | none => cases hg : s.gpu_devices <;> simp [inject_allocated_resource, hm, hg]
  | some m => cases hg : s.gpu_devices <;> simp [inject_allocated_resource, hm, hg, hram]

/-- Claim C4: when the model-instance list is obtained, every GPU device
in the status's device list gets its memory `allocated` field written to
the sum of claimed VRAM for that device's index over the same
instance/role set as the RAM aggregation; a device whose index has no
accumulated entry is written exactly zero (the sum is then zero), and
the field is always `some`, never left unset. -/
theorem inject_allocated_vram_devices (w : String) (instances : List ModelInstance)
    (s : WorkerStatus) :
    (inject_allocated_resource w (.ok instances) s).gpu_devices
      = s.gpu_devices.map (fun devs => devs.map (fun d =>
          { d with memory := { d.memory with
              allocated := some ((instances.map (instanceVramAt w d.index)).sum) } })) := by
  have hvram : ∀ idx, (lookupA (instances.foldl (instanceFoldStep w) ⟨0, []⟩).vram idx).getD 0
      = (instances.map (instanceVramAt w idx)).sum := by
    intro idx
    rw [foldl_instances_vram]
    simp [lookupA]
  have hdev : (fun (d : GPUDevice) =>
      (match lookupA (instances.foldl (instanceFoldStep w) ⟨0, []⟩).vram d.index with
        | some v => { d with memory := { d.memory with allocated := some v } }
        | none => { d with memory := { d.memory with allocated := some 0 } }))
      = (fun (d : GPUDevice) => { d with memory := { d.memory with
          allocated := some ((instances.map (instanceVramAt w d.index)).sum) } }) := by
    funext d
    cases hl : lookupA (instances.foldl (instanceFoldStep w) ⟨0, []⟩).vram d.index with
    | none =>
      have h0 := hvram d.index
      rw [hl] at h0
      simp at h0
      simp [← h0]
    | some v =>
      have h0 := hvram d.index
      rw [hl] at h0
      simp at h0
      simp [← h0]
  cases hm : s.memory <;> cases hg : s.gpu_devices <;>
    simp only [inject_allocated_resource, hm, hg, Option.map_none, Option.map_some] <;>
    simp [hdev]

/-- Claim C10: the allocated-resource step only ever touches the memory
record's `allocated` field and each GPU device's memory `allocated`
field; every other status field (cpu, swap, filesystem, os, kernel,
uptime, rpc_servers, the other memory fields, and each device's index,
name and other memory fields, in order) is unchanged, both when the
step completes and when it aborts on the listing exception. -/
theorem inject_allocated_frame (w : String) (r : Except Unit (List ModelInstance))
    (s : WorkerStatus) :
    (inject_allocated_resource w r s).cpu = s.cpu
      ∧ (inject_allocated_resource w r s).swap = s.swap
      ∧ (inject_allocated_resource w r s).filesystem = s.filesystem
      ∧ (inject_allocated_resource w r s).os = s.os
      ∧ (inject_allocated_resource w r s).kernel = s.kernel
      ∧ (inject_allocated_resource w r s).uptime = s.uptime
      ∧ (inject_allocated_resource w r s).rpc_servers = s.rpc_servers
      ∧ (inject_allocated_resource w r s).memory.map memShape = s.memory.map memShape
      ∧ (inject_allocated_resource w r s).gpu_devices.map (fun l => l.map devShape)
          = s.gpu_devices.map (fun l => l.map devShape) :=
  ⟨inject_allocated_cpu w r s, inject_allocated_swap w r s,
    inject_allocated_filesystem w r s, inject_allocated_os w r s,
    inject_allocated_kernel w r s, inject_allocated_uptime_field w r s,
    inject_allocated_rpc w r s, inject_allocated_memShape w r s,
    inject_allocated_devShape w r s⟩

/-- Claim C5 (amended): the synthesized `computed` filesystem entry
(name `computed`, mount path `/`) is appended — never substituted for
existing entries — exactly when the OS descriptor's name contains the
target-family substring and a filesystem list is present (possibly
empty; the source only checks `is not None`), its four totals each
being the exact sum of the corresponding field across the pre-existing
entries; the status is unchanged when the OS name does not match or
the filesystem list is absent. -/
theorem inject_fs_matches_spec (s : WorkerStatus) :
    inject_computed_filesystem_usage s = filesystemUsageSpec s := by
  unfold inject_computed_filesystem_usage filesystemUsageSpec
  cases ho : s.os with
  | none => cases hf : s.filesystem <;> simp
  | some o =>
    by_cases hw : strContains o.name "Windows"
    · cases hf : s.filesystem with
      | none => simp [hw]
      | some fs => simp [hw, fsFold_eq, computedMountPoint]
    · cases hf : s.filesystem <;> simp [hw]

/-- Counterexample to claim C5 as frozen: on an OS of the target family
with a present but empty filesystem list, the claim requires the entry
to be omitted (it demands a non-empty list), yet the code appends an
all-zero `computed` entry. -/
theorem inject_fs_counterexample :
    statusEmptyFsWin.filesystem = some []
      ∧ strContains "Windows 11" "Windows" = true
      ∧ (inject_computed_filesystem_usage statusEmptyFsWin).filesystem
          = some [{ name := "computed", mount_point := "/",
                    total := 0, used := 0, free := 0, available := 0 }] := by
  refine ⟨rfl, by decide, by decide⟩

/-- Claim C6: the unified-memory flag written onto the memory record
equals the first GPU device's flag when the device list is non-empty
and `false` when it is empty or absent; when no memory record exists,
nothing is written (the status is returned unchanged). -/
theorem unified_memory_flag (s : WorkerStatus) :
    (inject_unified_memory s).memory
        = s.memory.map (fun m =>
            { m with is_unified_memory := firstDeviceUnifiedMemory s.gpu_devices })
      ∧ (s.memory = none → inject_unified_memory s = s) := by
  constructor
  · unfold inject_unified_memory firstDeviceUnifiedMemory
    cases hm : s.memory with
    | none => simp [hm]
    | some m =>
      cases hg : s.gpu_devices with
      | none => simp [hm, hg]
      | some l => cases l <;> simp [hm, hg]
  · intro h
    exact inject_unified_of_memory_none s h

/-- Witness for C6: at a concrete status with a memory record and one
unified-memory GPU the flag is copied; at a concrete status without a
memory record the status is unchanged. -/
theorem unified_memory_flag_witness :
    (inject_unified_memory statusMemDev).memory
        = some { memEx with is_unified_memory := true }
      ∧ inject_unified_memory statusNoMem = statusNoMem := by
  constructor
  · have h := (unified_memory_flag statusMemDev).1
    simpa using h
  · exact (unified_memory_flag statusNoMem).2 rfl

/-- Claim C1 (amended): for every returned snapshot, the state is
NOT_READY iff `initial` is true or a distinguished GPU-detection
failure with a truthy (non-empty) message occurred; in every other
case the state is READY (the state decision tests Python truthiness of
the captured message, so an empty-string message leaves the worker
READY); the captured state message is attached to the record
regardless of the computed state. -/
theorem collect_state_iff (cfg : CollectorConfig) (c : Collab) (initial : Bool)
    (w : Worker) (h : collect cfg c initial = .ok w) :
    (w.state = WorkerStateEnum.NOT_READY
        ↔ (initial = true
            ∨ ∃ m, gpuFailureMsg initial c.detect_gpus = some m ∧ m ≠ ""))
      ∧ (w.state = WorkerStateEnum.READY
          ↔ ¬ (initial = true
              ∨ ∃ m, gpuFailureMsg initial c.detect_gpus = some m ∧ m ≠ ""))
      ∧ w.state_message = gpuFailureMsg initial c.detect_gpus := by
  obtain ⟨t, hr, hw⟩ := collect_ok_inv cfg c initial w h
  subst hw
  simp only [gpuStep_msg]
  cases initial with
  | true => simp
  | false =>
    cases hm : c.detect_gpus with
    | ok devices => simp [gpuFailureMsg, truthyMsg]
    | gpuDetectError m =>
      by_cases he : m = ""
      · subst he
        simp [gpuFailureMsg, truthyMsg]
      · simp [gpuFailureMsg, truthyMsg, he]
    | otherError => simp [gpuFailureMsg, truthyMsg]

/-- Witness for C1: at a concrete non-initial collection whose GPU
detection fails with message `boom`, the theorem yields NOT_READY and
the attached message. -/
theorem collect_state_iff_witness :
    wBoom.state = WorkerStateEnum.NOT_READY ∧ wBoom.state_message = some "boom" := by
  have h := collect_state_iff cfgEx collabBoom false wBoom rfl
  exact ⟨h.1.mpr (Or.inr ⟨"boom", rfl, by decide⟩), h.2.2.trans rfl⟩

/-- Counterexample to claim C1 as frozen: a distinguished GPU-detection
failure occurred and its message was captured, yet — because the
message is the empty string, which Python treats as falsy — the
returned state is READY, where the claim requires NOT_READY. -/
theorem collect_state_counterexample :
    collabEmptyMsg.detect_gpus = GpuDetectResult.gpuDetectError ""
      ∧ collect cfgEx collabEmptyMsg false
          = .ok { name := "worker-A", hostname := "host-A", ip := "10.0.0.1",
                  port := 10150, state := WorkerStateEnum.READY, status := {},
                  state_message := some "", worker_uuid := none } :=
  ⟨rfl, rfl⟩

/-- Claim C2 (amended): `collect` never raises to its caller provided
the process manager is absent or its rpc-server query does not raise —
that one collaborator call is unguarded in the source — while every
failure of the system-info detector, the GPU detector or the cluster
client is absorbed into the returned record. -/
theorem collect_total (cfg : CollectorConfig) (c : Collab) (initial : Bool)
    (h : rpcQueryOk c) :
    ∃ w, collect cfg c initial = .ok w := by
  have hrpc : ∀ s : WorkerStatus, ∃ t, rpcStep c.worker_manager s = .ok t := by
    intro s
    cases hm : c.worker_manager with
    | none => exact ⟨s, rfl⟩
    | some m =>
      obtain ⟨l, hl⟩ := h m hm
      exact ⟨{ s with rpc_servers := some (l.map (fun p =>
          (p.1, { pid := p.2.1, port := p.2.2, gpu_index := p.1 }))) },
        by simp [rpcStep, hm, hl]⟩
  obtain ⟨t, ht⟩ := hrpc (inject_allocated_resource cfg.worker_name c.list_model_instances
    (inject_computed_filesystem_usage (inject_unified_memory
      (gpuStep initial c.detect_gpus (sysInfoStep c.detect_system_info {})).1)))
  exact ⟨_, by simp only [collect]; rw [ht]⟩

/-- Witness for C2: at a concrete collaborator set with no process
manager (hence a vacuously successful rpc query) the call returns a
record. -/
theorem collect_total_witness : ∃ w, collect cfgEx collabOk false = .ok w :=
  collect_total cfgEx collabOk false (by intro m hm; simp [collabOk] at hm)

/-- Counterexample to claim C2 as frozen: when the process manager's
rpc-server query raises, `collect` propagates the exception instead of
returning a record — the claim's "never raises for every collaborator
behavior" fails. -/
theorem collect_raises_counterexample :
    collect cfgEx collabRpcRaise false = .error () := rfl

/-- Claim C7: when `initial` is true the GPU-detection step is skipped
entirely: the returned status's GPU device list is never populated, and
the whole returned record is independent of the GPU detector's
behavior (success, generic failure, or the distinguished failure). -/
theorem collect_initial_skips_gpu (cfg : CollectorConfig) (c : Collab) (w : Worker)
    (h : collect cfg c true = .ok w) :
    w.status.gpu_devices = none
      ∧ ∀ g, collect cfg { c with detect_gpus := g } true = .ok w := by
  constructor
  · obtain ⟨t, hr, hw⟩ := collect_ok_inv cfg c true w h
    subst hw
    have hg1 : (gpuStep true c.detect_gpus (sysInfoStep c.detect_system_info {})).1.gpu_devices
        = none := by
      rw [gpuStep_initial]
      rw [sysInfoStep_gpu]
    have hg2 := (inject_unified_gpu
      (gpuStep true c.detect_gpus (sysInfoStep c.detect_system_info {})).1).trans hg1
    have hg3 := (inject_fs_gpu (inject_unified_memory
      (gpuStep true c.detect_gpus (sysInfoStep c.detect_system_info {})).1)).trans hg2
    have hg4 := inject_allocated_gpu_none cfg.worker_name c.list_model_instances _ hg3
    have hg5 := (rpcStep_ok_frame c.worker_manager _ t hr).2.2.2.2.2.2.2
    exact hg5.trans hg4
  · intro g
    rw [← h]
    rfl

/-- Claim C8: when system-info detection fails, the call continues and
all seven system-info fields of the returned status stay unset; the
failure sets no state message and leaves readiness untouched — the
state is READY (with no message) whenever `initial` is false and the
GPU detector did not raise the distinguished failure. -/
theorem collect_sysinfo_failure_degrades (cfg : CollectorConfig) (c : Collab)
    (initial : Bool) (w : Worker) (h1 : c.detect_system_info = .error ())
    (h : collect cfg c initial = .ok w) :
    w.status.cpu = none ∧ w.status.memory = none ∧ w.status.swap = none
      ∧ w.status.filesystem = none ∧ w.status.os = none ∧ w.status.kernel = none
      ∧ w.status.uptime = none
      ∧ (initial = false → (∀ m, c.detect_gpus ≠ .gpuDetectError m)
          → w.state = WorkerStateEnum.READY ∧ w.state_message = none) := by
  obtain ⟨t, hr, hw⟩ := collect_ok_inv cfg c initial w h
  rw [h1] at hr hw
  have hs0 : sysInfoStep (Except.error ()) ({} : WorkerStatus) = ({} : WorkerStatus) := rfl
  rw [hs0] at hr hw
  have hf := gpuStep_fields initial c.detect_gpus ({} : WorkerStatus)
  have hmem : (gpuStep initial c.detect_gpus ({} : WorkerStatus)).1.memory = none := hf.2.1
  have hos : (gpuStep initial c.detect_gpus ({} : WorkerStatus)).1.os = none := hf.2.2.2.2.1
  have e2 : inject_unified_memory (gpuStep initial c.detect_gpus ({} : WorkerStatus)).1
      = (gpuStep initial c.detect_gpus ({} : WorkerStatus)).1 :=
    inject_unified_of_memory_none _ hmem
  rw [e2] at hr
  have e3 : inject_computed_filesystem_usage (gpuStep initial c.detect_gpus ({} : WorkerStatus)).1
      = (gpuStep initial c.detect_gpus ({} : WorkerStatus)).1 :=
    inject_fs_of_os_none _ hos
  rw [e3] at hr
  have frame := rpcStep_ok_frame c.worker_manager _ t hr
  subst hw
  refine ⟨?_, ?_, ?_, ?_, ?_, ?_, ?_, ?_⟩
  · exact frame.1.trans ((inject_allocated_cpu _ _ _).trans hf.1)
  · exact frame.2.1.trans (inject_allocated_memory_none _ _ _ hmem)
  · exact frame.2.2.1.trans ((inject_allocated_swap _ _ _).trans hf.2.2.1)
  · exact frame.2.2.2.1.trans ((inject_allocated_filesystem _ _ _).trans hf.2.2.2.1)
  · exact frame.2.2.2.2.1.trans ((inject_allocated_os _ _ _).trans hos)
  · exact frame.2.2.2.2.2.1.trans ((inject_allocated_kernel _ _ _).trans hf.2.2.2.2.2.1)
  · exact frame.2.2.2.2.2.2.1.trans
      ((inject_allocated_uptime_field _ _ _).trans hf.2.2.2.2.2.2.1)
  · intro hi hne
    subst hi
    cases hg : c.detect_gpus with
    | gpuDetectError m => exact absurd hg (hne m)
    | ok devices => simp [gpuStep_msg, gpuFailureMsg, hg, truthyMsg]
    | otherError => simp [gpuStep_msg, gpuFailureMsg, hg, truthyMsg]

/-- Witness for C8: a concrete call whose system-info detection fails
and whose GPU detection succeeds returns READY with all system-info
fields unset. -/
theorem collect_sysinfo_failure_witness :
    ∃ w, collect cfgEx { collabEmptyMsg with detect_gpus := .ok [] } false = .ok w
      ∧ w.status.cpu = none ∧ w.status.memory = none
      ∧ w.state = WorkerStateEnum.READY ∧ w.state_message = none := by
  obtain ⟨w, hw⟩ : ∃ w, collect cfgEx { collabEmptyMsg with detect_gpus := .ok [] } false
      = .ok w := ⟨_, rfl⟩
  have h := collect_sysinfo_failure_degrades cfgEx
    { collabEmptyMsg with detect_gpus := .ok [] } false w rfl hw
  have h8 := h.2.2.2.2.2.2.2 rfl (by intro m hm; simp [collabEmptyMsg] at hm)
  exact ⟨w, hw, h.1, h.2.1, h8.1, h8.2⟩

/-- Witness for C7: at a concrete initial collection the returned
status has no GPU devices and the record is unchanged when the GPU
detector's behavior is replaced. -/
theorem collect_initial_skips_gpu_witness :
    ∃ w, collect cfgEx collabBoom true = .ok w
      ∧ w.status.gpu_devices = none
      ∧ collect cfgEx { collabBoom with detect_gpus := .otherError } true = .ok w := by
  obtain ⟨w, hw⟩ : ∃ w, collect cfgEx collabBoom true = .ok w := ⟨_, rfl⟩
  have h := collect_initial_skips_gpu cfgEx collabBoom w hw
  exact ⟨w, hw, h.1, h.2 .otherError⟩

/-- Claim C9: `collect` is a pure function of the collaborator
responses — identical responses give identical records — and the only
time-varying input field, uptime, influences nothing but the status's
uptime field: two non-initial calls whose collaborator responses agree
except possibly on the reported uptime return records equal in every
other field. -/
theorem collect_uptime_noninterference (cfg : CollectorConfig) (c : Collab)
    (u : Option Nat) :
    (collect cfg (collabWithUptime c u) false).map scrubUptime
      = (collect cfg c false).map scrubUptime := by
  cases hs : c.detect_system_info with
  | error e =>
    have hceq : collabWithUptime c u = c := by
      unfold collabWithUptime
      rw [hs]
      cases c
      simp_all [Except.map]
    rw [hceq]
  | ok si =>
    have hceq : collabWithUptime c u = { c with detect_system_info := .ok (siWithUptime si u) } := by
      unfold collabWithUptime
      rw [hs]
      rfl
    rw [hceq]
    simp only [collect]
    simp only [hs]
    rw [sysInfoStep_uptime, gpuStep_fst_uptime, gpuStep_snd_uptime,
      inject_unified_uptime_commute, inject_fs_uptime_commute,
      inject_allocated_uptime_commute, rpcStep_uptime_commute]
    cases hr : rpcStep c.worker_manager (inject_allocated_resource cfg.worker_name
        c.list_model_instances (inject_computed_filesystem_usage (inject_unified_memory
          (gpuStep false c.detect_gpus (sysInfoStep (Except.ok si) {})).1))) with
    | error e => simp [Except.map]
    | ok t => simp [Except.map, scrubUptime]

end Collector
